import Mathlib

/-!
Verification of the SGD-to-MYR monitor (src/App.tsx) against its
natural-language specification.

The source is a single React component.  The embedding below translates,
from the source code:
- the JavaScript number fragment the component manipulates (`JSNum` for
  results of `parseFloat` / the `threshold` state, `JSVal` for the
  `rate` state which can be `null`, `undefined`, or a number),
- `parseInt(s, 10)` and `parseFloat(s)` as used by the two form handlers,
- the alert-decision and notification construction inside `fetchRate`
  (lines 169-181),
- the state updates of one `fetchRate` call (lines 155-189) as a step
  function on the monitor state of the component,
- the status derivation of `StatusIndicator` (lines 35-58),
- the fixed-rate `setInterval` scheduling of the polling `useEffect`
  (lines 191-197), and the React dependency-array semantics that decide
  when that effect re-runs.

Numeric values are modelled as exact rationals (`ℚ`): every concrete
value exercised by the specification (3.20, 3.25, 10, ...) is an exact
decimal, so no floating-point rounding is involved in any claim.
-/

/-- Browser notification permission (`NotificationPermission`):
`"default" | "granted" | "denied"`. -/
inductive Permission where
  | default
  | granted
  | denied
deriving DecidableEq

/-- A JavaScript number as produced by `parseFloat` and stored in the
`threshold` state: `NaN`, `Infinity`, `-Infinity`, or a finite value
(modelled as an exact rational). -/
inductive JSNum where
  | nan
  | inf
  | negInf
  | finite (q : ℚ)
deriving DecidableEq

/-- A JavaScript value as stored in the `rate` state: initially `null`,
set by `setRate(data.rates.MYR)` to either a number or `undefined`
(when the `rates` object lacks the `MYR` key). -/
inductive JSVal where
  | null
  | undef
  | num (q : ℚ)
deriving DecidableEq

/-- The JavaScript comparison `newRate > threshold` (line 169):
`undefined > x` is always false (NaN comparison); `null` coerces to 0;
comparisons with `NaN` are false. -/
def jsGT : JSVal → JSNum → Bool
  | .num q, .finite t => decide (t < q)
  | .num _, .negInf => true
  | .num _, .inf => false
  | .num _, .nan => false
  | .undef, _ => false
  | .null, .finite t => decide (t < 0)
  | .null, .negInf => true
  | .null, .inf => false
  | .null, .nan => false

/-- The JavaScript test `x > 0` on a parsed number (lines 209, 228). -/
def jsGtZero : JSNum → Bool
  | .finite q => decide (0 < q)
  | .inf => true
  | .negInf => false
  | .nan => false

/-- The JavaScript test `isNaN(x)` (lines 209, 228). -/
def jsIsNaN : JSNum → Bool
  | .nan => true
  | _ => false

/-! ### Decimal rendering

`Number.prototype.toFixed(d)` and the default number-to-string
conversion used by template-literal interpolation.  For a nonnegative
rational these are: scale by `10^d`, round to the nearest integer
(ties away from zero, per the ECMAScript `toFixed` algorithm), and
print with a decimal point; default `toString` additionally strips
trailing zeros (all numbers in this program are short decimals, for
which the shortest-round-trip output of ECMAScript `toString` is
exactly the minimal decimal form). -/

/-- The value `⌊q * 10^d + 1/2⌋` for `q ≥ 0`, computed on the reduced
numerator/denominator so that it evaluates by kernel reduction. -/
def roundedScale (d : ℕ) (q : ℚ) : ℤ :=
  (2 * q.num * (10 : ℤ) ^ d + (q.den : ℤ)) / (2 * (q.den : ℤ))

/-- Print the natural number `n` as a decimal with `d` digits after the
point (so `n` counts units of `10 ^ (-d)`). -/
def fixedDigits (d : ℕ) (n : ℕ) : String :=
  let s := (Nat.repr n).data
  let s := if s.length < d + 1 then List.replicate (d + 1 - s.length) '0' ++ s else s
  if d = 0 then String.mk s
  else String.mk (s.take (s.length - d) ++ '.' :: s.drop (s.length - d))

/-- The rendering `q.toFixed(d)` for a rational `q`. -/
def toFixedQ (d : ℕ) (q : ℚ) : String :=
  if q < 0 then "-" ++ fixedDigits d (roundedScale d (-q)).toNat
  else fixedDigits d (roundedScale d q).toNat

/-- Drop trailing `'0'` characters after the decimal point, and a
trailing `'.'`, from a fixed-point rendering. -/
def stripTailZeros (s : String) : String :=
  let r := s.data.reverse.dropWhile (· == '0')
  let r := match r with
    | '.' :: rest => rest
    | other => other
  String.mk r.reverse

/-- Default ECMAScript rendering of a finite number whose value is a
short decimal fraction: minimal decimal form (`3.2` prints as "3.2",
not "3.20"; `10` prints as "10"). -/
def decStr (q : ℚ) : String :=
  if q < 0 then "-" ++ stripTailZeros (fixedDigits 6 (roundedScale 6 (-q)).toNat)
  else stripTailZeros (fixedDigits 6 (roundedScale 6 q).toNat)

/-- Template-literal interpolation of the `threshold` number
(the `${threshold}` on line 171). -/
def jsNumToString : JSNum → String
  | .nan => "NaN"
  | .inf => "Infinity"
  | .negInf => "-Infinity"
  | .finite q => decStr q

/-! ### `parseInt` and `parseFloat` -/

/-- ECMAScript white space accepted before a numeric literal. -/
def isSpaceChar (c : Char) : Bool :=
  c == ' ' || c == '\t' || c == '\n' || c == '\r' || c == '\x0b' || c == '\x0c'

/-- Numeric value of a decimal digit character. -/
def digVal (c : Char) : ℕ := c.toNat - '0'.toNat

/-- Value of a list of decimal digit characters. -/
def digitsToNat (ds : List Char) : ℕ := ds.foldl (fun a c => 10 * a + digVal c) 0

/-- Embedding of `parseInt(s, 10)` (line 227): skip white space, read an optional
sign, then the longest prefix of decimal digits; `NaN` (here `none`)
iff that prefix is empty.  Everything after the digit prefix is
ignored, so `parseInt("3.5", 10) = 3`. -/
def jsParseInt (s : String) : Option ℤ :=
  let cs := s.data.dropWhile isSpaceChar
  let sg : ℤ := match cs with
    | '-' :: _ => -1
    | _ => 1
  let cs := match cs with
    | '-' :: rest => rest
    | '+' :: rest => rest
    | other => other
  let ds := cs.takeWhile Char.isDigit
  if ds.isEmpty then none
  else some (sg * (digitsToNat ds : ℤ))

/-- Exponent part of a decimal literal: `e`/`E`, optional sign, digits.
If the digits are missing the exponent part is not consumed
(`parseFloat("1e") = 1`), hence contributes exponent `0`. -/
def parseExp (cs : List Char) : ℤ :=
  match cs with
  | 'e' :: r =>
    let sg : ℤ := match r with
      | '-' :: _ => -1
      | _ => 1
    let r2 := match r with
      | '-' :: t => t
      | '+' :: t => t
      | other => other
    let ds := r2.takeWhile Char.isDigit
    if ds.isEmpty then 0 else sg * (digitsToNat ds : ℤ)
  | 'E' :: r =>
    let sg : ℤ := match r with
      | '-' :: _ => -1
      | _ => 1
    let r2 := match r with
      | '-' :: t => t
      | '+' :: t => t
      | other => other
    let ds := r2.takeWhile Char.isDigit
    if ds.isEmpty then 0 else sg * (digitsToNat ds : ℤ)
  | _ => 0

/-- Assemble a finite parsed value `sgn * (intPart.fracPart) * 10^expo`
as an exact rational. -/
def buildQ (sgn : ℤ) (mantNum mantDen expo : ℤ) : ℚ :=
  if 0 ≤ expo then Rat.divInt (sgn * mantNum * (10 : ℤ) ^ expo.toNat) mantDen
  else Rat.divInt (sgn * mantNum) (mantDen * (10 : ℤ) ^ (-expo).toNat)

/-- Embedding of `parseFloat(s)` (line 208): skip white space, optional sign, then
either the literal `Infinity` or a decimal literal
`digits [. digits] [e[sign]digits]`; the longest valid prefix is used
and the rest ignored; `NaN` iff no digits at all. -/
def jsParseFloat (s : String) : JSNum :=
  let cs := s.data.dropWhile isSpaceChar
  let neg : Bool := match cs with
    | '-' :: _ => true
    | _ => false
  let cs := match cs with
    | '-' :: rest => rest
    | '+' :: rest => rest
    | other => other
  match cs with
  | 'I' :: 'n' :: 'f' :: 'i' :: 'n' :: 'i' :: 't' :: 'y' :: _ =>
    if neg then .negInf else .inf
  | other =>
    let intDs := other.takeWhile Char.isDigit
    let rest := other.drop intDs.length
    let fracDs := match rest with
      | '.' :: r => r.takeWhile Char.isDigit
      | _ => []
    let rest2 := match rest with
      | '.' :: r => r.drop (r.takeWhile Char.isDigit).length
      | _ => rest
    if intDs.isEmpty && fracDs.isEmpty then .nan
    else
      let sgn : ℤ := if neg then -1 else 1
      let mantNum : ℤ := (digitsToNat intDs : ℤ) * (10 : ℤ) ^ fracDs.length + (digitsToNat fracDs : ℤ)
      let mantDen : ℤ := (10 : ℤ) ^ fracDs.length
      .finite (buildQ sgn mantNum mantDen (parseExp rest2))

/-! ### Validator: the parse-and-check logic of the two form handlers -/

/-- Result of one validation call: the canonical parsed value, or a
recoverable error carrying the user-facing message. -/
inductive VResult (α : Type) where
  | ok (v : α)
  | recoverableError (msg : String)
deriving DecidableEq

/-- Error message set by `handleSetThreshold` on invalid input (line 214). -/
def thresholdErrMsg : String := "Please enter a valid positive number."

/-- Error message set by `handleSetCheckInterval` on invalid input (line 233). -/
def intervalErrMsg : String := "Please enter a valid positive number (minutes)."

/-- Validation performed by `handleSetThreshold` (lines 208-209):
`parseFloat` the input, accept iff `!isNaN(v) && v > 0`. -/
def parseThresholdV (input : String) : VResult JSNum :=
  let v := jsParseFloat input
  if (!jsIsNaN v) && jsGtZero v then .ok v else .recoverableError thresholdErrMsg

/-- Validation performed by `handleSetCheckInterval` (lines 227-228):
`parseInt(input, 10)`, accept iff `!isNaN(n) && n > 0`. -/
def parseIntervalV (input : String) : VResult ℤ :=
  match jsParseInt input with
  | some n => if 0 < n then .ok n else .recoverableError intervalErrMsg
  | none => .recoverableError intervalErrMsg

/-- The settings-related React state of the component (lines 128-136). -/
structure SettingsState where
  threshold : JSNum
  inputThreshold : String
  thresholdError : Option String
  checkInterval : ℤ
  inputCheckInterval : String
  intervalError : Option String
  notificationSound : String
deriving DecidableEq

/-- Initial settings state: threshold 3.20, interval 10 minutes,
sound the empty string (the "Default"/none option). -/
def initialSettings : SettingsState :=
  { threshold := .finite (Rat.divInt 16 5)
    inputThreshold := "3.20"
    thresholdError := none
    checkInterval := 10
    inputCheckInterval := "10"
    intervalError := none
    notificationSound := "" }

/-- Handler `handleSetThreshold` (lines 206-216) as a state transformer: on
success install the parsed value, re-stringify the input field, clear
the error; on failure set only the error message. -/
def handleSetThreshold (s : SettingsState) : SettingsState :=
  match parseThresholdV s.inputThreshold with
  | .ok v =>
    { s with threshold := v, inputThreshold := jsNumToString v, thresholdError := none }
  | .recoverableError m => { s with thresholdError := some m }

/-- Handler `handleSetCheckInterval` (lines 225-235) as a state transformer. -/
def handleSetCheckInterval (s : SettingsState) : SettingsState :=
  match parseIntervalV s.inputCheckInterval with
  | .ok n =>
    { s with checkInterval := n, inputCheckInterval := n.repr, intervalError := none }
  | .recoverableError m => { s with intervalError := some m }

/-- Handler `handleSoundChange` (lines 237-239): installs the selected sound URL. -/
def handleSoundChange (s : SettingsState) (v : String) : SettingsState :=
  { s with notificationSound := v }

/-! ### Alert decision and notification construction (lines 169-181) -/

/-- The title passed to `new Notification(...)` (line 180). -/
def alertTitle : String := "SGD to MYR Rate Alert!"

/-- The rendering `newRate.toFixed(4)`; only ever evaluated on a number, since the
guard `newRate > threshold` is false for `null`/`undefined`. -/
def jsToFixed4 : JSVal → String
  | .num q => toFixedQ 4 q
  | _ => ""

/-- The notification body template of line 171: the rate via
`toFixed(4)`, the threshold via plain interpolation `${threshold}`. -/
def alertBody (newRate : JSVal) (threshold : JSNum) : String :=
  "SGD is now " ++ jsToFixed4 newRate ++ " MYR, exceeding the " ++
    jsNumToString threshold ++ " threshold."

/-- A desktop notification as issued by `new Notification(title, options)`. -/
structure NotificationShown where
  title : String
  body : String
  silent : Bool
deriving DecidableEq

/-- The externally observable side-effect requests of one alert
evaluation: the audio URI passed to `new Audio(...).play()` if any, the
notification if any, and the console-error log lines. -/
structure AlertOutput where
  played : Option String
  notif : Option NotificationShown
  logs : List String
deriving DecidableEq

/-- No side effects requested. -/
def noAlert : AlertOutput := { played := none, notif := none, logs := [] }

/-- The alert-decision step of `fetchRate` (lines 169-181): alert iff
`newRate > threshold` combined with the permission being granted; when
`notificationSound` is truthy (non-empty), request playback and mark
the notification silent; a playback failure is only logged
(`audio.play().catch(e => console.error(...))`) and does not affect
the notification. -/
def evaluate (newRate : JSVal) (threshold : JSNum) (permission : Permission)
    (sound : String) (playFails : Bool) : AlertOutput :=
  if jsGT newRate threshold && (permission == .granted) then
    if sound ≠ "" then
      { played := some sound
        notif := some { title := alertTitle, body := alertBody newRate threshold, silent := true }
        logs := if playFails then ["Error playing audio:"] else [] }
    else
      { played := none
        notif := some { title := alertTitle, body := alertBody newRate threshold, silent := false }
        logs := [] }
  else noAlert

/-! ### Monitor state and the `fetchRate` step (lines 121-126, 155-189) -/

/-- The monitor-related React state: `rate`, `lastChecked`, `error`,
`isLoading` (lines 121-124).  `lastChecked` is the `new Date()`
timestamp, modelled as an abstract instant. -/
structure MonitorState where
  rate : JSVal
  lastChecked : Option ℕ
  error : Option String
  isLoading : Bool
deriving DecidableEq

/-- Initial monitor state: `rate = null`, `lastChecked = null`,
`error = null`, `isLoading = true`. -/
def initialMonitorState : MonitorState :=
  { rate := .null, lastChecked := none, error := none, isLoading := true }

/-- Shape of a successfully parsed JSON response body, as accessed by
`data.rates.MYR` (line 164): whether the `rates` object is present,
and the numeric `MYR` field if present. -/
structure JsonBody where
  ratesPresent : Bool
  myr : Option ℚ
deriving DecidableEq

/-- Outcome of the `fetch`/`response.json()` round trip, chosen by the
environment: transport failure (`fetch` rejects, message of the thrown
`TypeError`), non-ok HTTP status (line 160), JSON parse failure
(`response.json()` rejects), or a parsed body. -/
inductive FetchResult where
  | networkError (msg : String)
  | httpError (status : ℕ) (statusText : String)
  | parseError (msg : String)
  | jsonOk (body : JsonBody)
deriving DecidableEq

/-- Message of the `TypeError` thrown by `data.rates.MYR` when `rates`
is absent (browser-generated text; its exact wording is irrelevant to
every claim). -/
def ratesAbsentMsg : String := "Cannot read properties of undefined (reading MYR)"

/-- One complete `fetchRate` call (lines 155-189), composing the
prologue `setIsLoading(true); setError(null)` with the
try/catch/finally body: on any failure the caught message is stored in
`error` and no alert is evaluated; on success `rate` and `lastChecked`
are updated, `error` stays cleared, and the alert step runs; `finally`
clears `isLoading`.  Returns the new state and the side-effect
requests. -/
def doCheck (s : MonitorState) (threshold : JSNum) (sound : String)
    (permission : Permission) (r : FetchResult) (now : ℕ) (playFails : Bool) :
    MonitorState × AlertOutput :=
  match r with
  | .networkError m =>
    ({ s with error := some m, isLoading := false }, noAlert)
  | .httpError code text =>
    let m := "API error: " ++ text ++ " (" ++ Nat.repr code ++ ")"
    ({ s with error := some m, isLoading := false }, noAlert)
  | .parseError m =>
    ({ s with error := some m, isLoading := false }, noAlert)
  | .jsonOk body =>
    if body.ratesPresent then
      let newRate : JSVal := match body.myr with
        | some q => .num q
        | none => .undef
      ({ s with rate := newRate, lastChecked := some now, error := none, isLoading := false },
       evaluate newRate threshold permission sound playFails)
    else
      ({ s with error := some ratesAbsentMsg, isLoading := false }, noAlert)

/-- The published status as derived by `StatusIndicator`
(lines 35-58): `Checking` while loading, else `Error` if an error is
recorded, else `Monitoring`.  The `Initializing` text of line 37 is
dead: the if/else chain always overwrites it. -/
inductive Status where
  | initializing
  | checking
  | error
  | monitoring
deriving DecidableEq

/-- Status derivation of `StatusIndicator` (lines 40-50). -/
def statusOf (s : MonitorState) : Status :=
  if s.isLoading then .checking
  else if s.error.isSome then .error
  else .monitoring

/-- The environment-chosen inputs of one check: current config and
permission, the fetch outcome, the clock reading, and whether audio
playback fails. -/
structure CheckInput where
  threshold : JSNum
  sound : String
  permission : Permission
  result : FetchResult
  now : ℕ
  playFails : Bool

/-- State part of one check. -/
def stepCheck (s : MonitorState) (i : CheckInput) : MonitorState :=
  (doCheck s i.threshold i.sound i.permission i.result i.now i.playFails).1

/-- Monitor states reachable from the initial state by complete checks. -/
inductive Reachable : MonitorState → Prop where
  | init : Reachable initialMonitorState
  | step : ∀ s i, Reachable s → Reachable (stepCheck s i)

/-- A fetch outcome whose successful JSON bodies carry a numeric `MYR`
field whenever the `rates` object is present. -/
def goodResult : FetchResult → Bool
  | .jsonOk body => !body.ratesPresent || body.myr.isSome
  | _ => true

/-- Reachability restricted to checks with well-formed success bodies. -/
inductive ReachableGood : MonitorState → Prop where
  | init : ReachableGood initialMonitorState
  | step : ∀ s i, goodResult i.result = true → ReachableGood s →
      ReachableGood (stepCheck s i)

/-! ### The polling timer (lines 191-197) and effect re-run semantics

The polling `useEffect` calls `fetchRate()` once immediately and then
`setInterval(fetchRate, checkInterval * 60 * 1000)`.  `setInterval` is
a fixed-rate timer: it fires every `intervalMs` milliseconds after the
effect ran, regardless of whether the previous asynchronous `fetchRate`
has completed.  So check number `k` starts at time `k * intervalMs`
(time measured from the effect run), and a check with latency `L` is
in flight during `[start, start + L)`. -/

/-- Start time of the `k`-th check after an effect run (`k = 0` is the
immediate call, `k ≥ 1` the `setInterval` firings). -/
def tickStart (intervalMs k : ℕ) : ℕ := k * intervalMs

/-- Number of checks in flight at time `t`, when every check has
latency `latency`.  For `intervalMs ≥ 1` every in-flight check `k`
satisfies `k ≤ k * intervalMs ≤ t`, so the range `t + 1` covers all
candidates. -/
def inFlightCount (intervalMs latency t : ℕ) : ℕ :=
  ((Finset.range (t + 1)).filter
    (fun k => tickStart intervalMs k ≤ t ∧ t < tickStart intervalMs k + latency)).card

/-- Dependency tuple of the polling `useEffect` (line 197): the effect
depends on `[fetchRate, checkInterval]`, and the `fetchRate` callback
identity is determined by its `useCallback` dependencies
`[threshold, notificationSound]` (line 189). -/
structure PollingEffectDeps where
  threshold : JSNum
  notificationSound : String
  checkInterval : ℤ
deriving DecidableEq

/-- Dependencies of the polling effect read off a settings state. -/
def pollingDeps (s : SettingsState) : PollingEffectDeps :=
  { threshold := s.threshold
    notificationSound := s.notificationSound
    checkInterval := s.checkInterval }

/-- React effect semantics: after a state update the polling effect
re-runs (cleanup the old interval, run the body) iff some entry of its
dependency array changed. -/
def effectRefires (old new : SettingsState) : Bool :=
  decide (pollingDeps old ≠ pollingDeps new)

/-- What one run of the polling effect body does (lines 192-194): an
immediate `fetchRate()` call, then a `setInterval` armed at
`checkInterval * 60 * 1000` milliseconds. -/
structure EffectRun where
  immediateCheck : Bool
  timerIntervalMs : ℤ
deriving DecidableEq

/-- Body of the polling `useEffect`. -/
def runPollingEffect (s : SettingsState) : EffectRun :=
  { immediateCheck := true, timerIntervalMs := s.checkInterval * 60 * 1000 }

/-! ### Concrete instances used by witnesses and counterexamples -/

/-- A check whose successful JSON body has a `rates` object without the
numeric `MYR` field. -/
def missingMyrInput : CheckInput :=
  { threshold := .finite (Rat.divInt 16 5)
    sound := ""
    permission := .granted
    result := .jsonOk { ratesPresent := true, myr := none }
    now := 0
    playFails := false }

/-- A check whose fetch fails at the transport level. -/
def failingInput : CheckInput :=
  { threshold := .finite (Rat.divInt 16 5)
    sound := ""
    permission := .granted
    result := .networkError "Failed to fetch"
    now := 0
    playFails := false }

/-- A check returning rate 3.25 with a well-formed body. -/
def goodInput : CheckInput :=
  { threshold := .finite (Rat.divInt 16 5)
    sound := ""
    permission := .granted
    result := .jsonOk { ratesPresent := true, myr := some (Rat.divInt 13 4) }
    now := 0
    playFails := false }

/-- Settings whose pending input fields fail validation. -/
def badSettings : SettingsState :=
  { initialSettings with inputThreshold := "abc", inputCheckInterval := "0" }

/-- Settings whose pending input fields hold new valid values. -/
def newValueSettings : SettingsState :=
  { initialSettings with inputThreshold := "4", inputCheckInterval := "1" }

/-- The "Chime" entry of the `SOUNDS` table (line 9). -/
def chimeUrl : String := "https://soundbible.com/grab.php?id=1954&type=mp3"

/-- Message recorded for the failure outcomes (the value stored by
`setError` in the catch block, per failure case). -/
def failureMessage : FetchResult → Option String
  | .networkError m => some m
  | .httpError code text => some ("API error: " ++ text ++ " (" ++ Nat.repr code ++ ")")
  | .parseError m => some m
  | .jsonOk _ => none

/-- Helper: when the latency of each check is at most the polling interval,
two distinct fixed-rate ticks are never simultaneously in flight. -/
theorem tick_disjoint_aux {I L a b t : ℕ} (hL : L ≤ I) (hab : a < b)
    (hb : b * I ≤ t) (ha : t < a * I + L) : False := by
  have h2 : a + 1 ≤ b := hab
  have h1 : a * I + I ≤ b * I := by
    calc a * I + I = (a + 1) * I := by ring
      _ ≤ b * I := Nat.mul_le_mul_right I h2
  omega

/-- C2 (counterexample): with a polling interval of 60 time units and a
fetch latency of 90, at time 60 two fetches are in flight at once -
the `setInterval` timer of line 194 is fixed-rate, so the claim that
the next check is only scheduled after the previous one completes is
false on the code. -/
theorem setInterval_overlapping_fetches_cx : inFlightCount 60 90 60 = 2 := by decide

/-- C2 (amended): under the fixed-rate `setInterval` scheduling of
lines 191-197, at most one fetch is ever in flight if and only if the
fetch latency is at most the polling interval; a fetch slower than the
interval does produce concurrent fetches. -/
theorem fixedRate_overlap_free_iff (I L : ℕ) (hI : 1 ≤ I) :
    (∀ t, inFlightCount I L t ≤ 1) ↔ L ≤ I := by
  constructor
  · intro hall
    by_contra hlt
    push_neg at hlt
    have hmem : ({0, 1} : Finset ℕ) ⊆ (Finset.range (I + 1)).filter
        (fun k => tickStart I k ≤ I ∧ I < tickStart I k + L) := by
      intro k hk
      rcases Finset.mem_insert.mp hk with rfl | hk1
      · simp only [Finset.mem_filter, Finset.mem_range, tickStart]
        omega
      · rcases Finset.mem_singleton.mp hk1 with rfl
        simp only [Finset.mem_filter, Finset.mem_range, tickStart]
        omega
    have hcard := Finset.card_le_card hmem
    rw [show ({0, 1} : Finset ℕ).card = 2 from by decide] at hcard
    have h1 := hall I
    unfold inFlightCount at h1
    omega
  · intro hL t
    unfold inFlightCount
    apply Finset.card_le_one.mpr
    intro a ha b hb
    rcases Finset.mem_filter.mp ha with ⟨-, ha1, ha2⟩
    rcases Finset.mem_filter.mp hb with ⟨-, hb1, hb2⟩
    unfold tickStart at ha1 ha2 hb1 hb2
    by_contra hne
    rcases Nat.lt_or_ge a b with h | h
    · exact tick_disjoint_aux hL h hb1 ha2
    · have h2 : b < a := Nat.lt_of_le_of_ne h (fun he => hne he.symm)
      exact tick_disjoint_aux hL h2 ha1 hb2

/-- C2 (witness): the amended theorem applied at interval 60,
latency 45. -/
theorem fixedRate_overlap_free_iff_witness :
    (1 ≤ 60) ∧ ((∀ t, inFlightCount 60 45 t ≤ 1) ↔ 45 ≤ 60) :=
  ⟨by decide, fixedRate_overlap_free_iff 60 45 (by decide)⟩

/-- C1: the alert-decision step of `fetchRate` (line 169) produces a
desktop notification iff the rate strictly exceeds the threshold and
permission is granted; a rate equal to the threshold never alerts, and
any permission other than granted never alerts. -/
theorem evaluate_alert_iff_strict_and_granted :
    (∀ (q t : ℚ) (p : Permission) (sound : String) (pf : Bool),
      (evaluate (.num q) (.finite t) p sound pf).notif.isSome = true ↔
        (t < q ∧ p = .granted)) ∧
    (∀ (q : ℚ) (p : Permission) (sound : String) (pf : Bool),
      (evaluate (.num q) (.finite q) p sound pf).notif = none) ∧
    (∀ (q t : ℚ) (sound : String) (pf : Bool),
      (evaluate (.num q) (.finite t) .default sound pf).notif = none ∧
      (evaluate (.num q) (.finite t) .denied sound pf).notif = none) := by
  refine ⟨?_, ?_, ?_⟩
  · intro q t p sound pf
    by_cases h1 : t < q <;> by_cases h2 : p = Permission.granted <;>
      simp [evaluate, jsGT, h1, h2, noAlert]
    split <;> simp
  · intro q p sound pf
    simp [evaluate, jsGT, noAlert]
  · intro q t sound pf
    exact ⟨by simp [evaluate, jsGT, noAlert], by simp [evaluate, jsGT, noAlert]⟩

/-- C3 (counterexample): with threshold 3.20 and rate 3.25 the alert is
produced, but its message interpolates the threshold with plain
template-literal interpolation (line 171), rendering "3.2"; the message
does not contain the substring "3.20", so the threshold is not rendered
with exactly 2 decimal places. -/
theorem alert_message_two_decimals_cx :
    (evaluate (.num (Rat.divInt 13 4)) (.finite (Rat.divInt 16 5)) .granted "" false).notif =
      some { title := alertTitle
             body := "SGD is now 3.2500 MYR, exceeding the 3.2 threshold."
             silent := false } ∧
    ¬ ("3.20".data <:+: "SGD is now 3.2500 MYR, exceeding the 3.2 threshold.".data) :=
  ⟨by decide, by decide⟩

/-- C3 (amended): every alert message contains the observed rate
rendered by the 4-decimal fixed rendering, and the threshold rendered
by default number-to-string interpolation (not 2 fixed decimals); in
the threshold-3.20 / rate-3.25 scenario the message contains "3.2500"
and "3.2" but not "3.20". -/
theorem alert_message_contents :
    (∀ (q : ℚ) (thr : JSNum),
      (toFixedQ 4 q).data <:+: (alertBody (.num q) thr).data) ∧
    (∀ (q : ℚ) (thr : JSNum),
      (jsNumToString thr).data <:+: (alertBody (.num q) thr).data) ∧
    ("3.2500".data <:+: (alertBody (.num (Rat.divInt 13 4)) (.finite (Rat.divInt 16 5))).data) ∧
    ("3.2".data <:+: (alertBody (.num (Rat.divInt 13 4)) (.finite (Rat.divInt 16 5))).data) ∧
    ¬ ("3.20".data <:+: (alertBody (.num (Rat.divInt 13 4)) (.finite (Rat.divInt 16 5))).data) := by
  refine ⟨?_, ?_, by decide, by decide, by decide⟩
  · intro q thr
    refine ⟨"SGD is now ".data,
      (" MYR, exceeding the " ++ jsNumToString thr ++ " threshold.").data, ?_⟩
    simp [alertBody, jsToFixed4, String.data_append]
  · intro q thr
    refine ⟨("SGD is now " ++ jsToFixed4 (.num q) ++ " MYR, exceeding the ").data,
      " threshold.".data, ?_⟩
    simp [alertBody, String.data_append]

/-- C4 (counterexample): `parseInt` with radix 10 reads the leading
digit prefix of "3.5" and yields 3, which is positive, so the interval
validation accepts the non-integer string "3.5" and installs interval 3
instead of rejecting it with a recoverable error. -/
theorem parseInterval_accepts_three_point_five_cx :
    parseIntervalV "3.5" = VResult.ok 3 := by decide

/-- C4 (amended): the interval validation accepts an input string iff
`parseInt(input, 10)` yields a value strictly greater than 0, in which
case that value is installed; `parseInt` parses the longest leading
digit prefix, so "10" gives 10 and "0" is rejected, but the
non-integer "3.5" is accepted as 3. -/
theorem parseInterval_accepts_iff_parseInt_positive :
    (∀ (s : String) (n : ℤ),
      parseIntervalV s = VResult.ok n ↔ (jsParseInt s = some n ∧ 0 < n)) ∧
    parseIntervalV "10" = VResult.ok 10 ∧
    parseIntervalV "0" = VResult.recoverableError intervalErrMsg ∧
    parseIntervalV "3.5" = VResult.ok 3 := by
  refine ⟨?_, by decide, by decide, by decide⟩
  intro s n
  unfold parseIntervalV
  cases h : jsParseInt s with
  | none => simp
  | some m =>
    by_cases hm : 0 < m
    · simp only [hm, if_pos]
      constructor
      · rintro h2
        cases h2
        exact ⟨rfl, hm⟩
      · rintro ⟨h2, -⟩
        cases h2
        rfl
    · simp only [hm, if_neg, not_false_eq_true]
      constructor
      · rintro h2
        cases h2
      · rintro ⟨h2, h3⟩
        cases h2
        exact absurd h3 hm

/-- C5 (counterexample): `parseFloat` on "Infinity" yields `Infinity`,
which is not NaN and compares greater than 0, so the threshold
validation accepts "Infinity" - a non-finite parse result is installed
rather than rejected. -/
theorem parseThreshold_accepts_infinity_cx :
    parseThresholdV "Infinity" = VResult.ok JSNum.inf := by decide

/-- C5 (amended): the threshold validation accepts an input string iff
`parseFloat(input)` is not NaN and compares strictly greater than 0 -
finiteness is not checked, so "Infinity" is accepted; the finite
examples behave as claimed: "3.20" gives 3.2, while "-1", "abc" and
"0" are rejected with the recoverable error message. -/
theorem parseThreshold_accepts_iff_nonNaN_positive :
    (∀ (s : String) (v : JSNum),
      parseThresholdV s = VResult.ok v ↔
        (jsParseFloat s = v ∧ jsIsNaN v = false ∧ jsGtZero v = true)) ∧
    parseThresholdV "3.20" = VResult.ok (.finite (Rat.divInt 16 5)) ∧
    parseThresholdV "-1" = VResult.recoverableError thresholdErrMsg ∧
    parseThresholdV "abc" = VResult.recoverableError thresholdErrMsg ∧
    parseThresholdV "0" = VResult.recoverableError thresholdErrMsg ∧
    parseThresholdV "Infinity" = VResult.ok JSNum.inf := by
  refine ⟨?_, by decide, by decide, by decide, by decide, by decide⟩
  intro s v
  unfold parseThresholdV
  by_cases hc : (!jsIsNaN (jsParseFloat s)) && jsGtZero (jsParseFloat s)
  · simp only [hc, if_pos]
    have hc2 : jsIsNaN (jsParseFloat s) = false ∧ jsGtZero (jsParseFloat s) = true := by
      simpa using hc
    constructor
    · rintro h2
      cases h2
      exact ⟨rfl, hc2.1, hc2.2⟩
    · rintro ⟨h2, -, -⟩
      cases h2
      rfl
  · simp only [hc, if_neg, not_false_eq_true]
    constructor
    · rintro h2
      cases h2
    · rintro ⟨h2, hn, hg⟩
      cases h2
      exact absurd (by simp [hn, hg]) hc

/-- C6: when validation of the pending input fails, the handler only
sets the local error message: the installed threshold, check interval,
sound, and the other input fields are all left unchanged, so nothing
consumed by the polling loop is mutated. -/
theorem validation_failure_preserves_config :
    (∀ (s : SettingsState) (m : String),
      parseThresholdV s.inputThreshold = VResult.recoverableError m →
        handleSetThreshold s = { s with thresholdError := some m }) ∧
    (∀ (s : SettingsState) (m : String),
      parseIntervalV s.inputCheckInterval = VResult.recoverableError m →
        handleSetCheckInterval s = { s with intervalError := some m }) := by
  constructor
  · intro s m h
    simp [handleSetThreshold, h]
  · intro s m h
    simp [handleSetCheckInterval, h]

/-- C6 (witness): both handlers applied to a state whose pending
inputs "abc" and "0" fail validation. -/
theorem validation_failure_preserves_config_witness :
    handleSetThreshold badSettings = { badSettings with thresholdError := some thresholdErrMsg } ∧
    handleSetCheckInterval badSettings = { badSettings with intervalError := some intervalErrMsg } :=
  ⟨validation_failure_preserves_config.1 badSettings thresholdErrMsg (by decide),
   validation_failure_preserves_config.2 badSettings intervalErrMsg (by decide)⟩

/-- C7 (counterexample): a successful HTTP response whose JSON body has
a `rates` object without the numeric `MYR` field stores `undefined`
into `rate`, clears the error, and ends not loading - the reachable
resulting state has published status Monitoring with no observed rate
value, violating the claimed invariant. -/
theorem monitoring_without_sample_cx :
    statusOf (stepCheck initialMonitorState missingMyrInput) = Status.monitoring ∧
    (stepCheck initialMonitorState missingMyrInput).rate = JSVal.undef ∧
    Reachable (stepCheck initialMonitorState missingMyrInput) :=
  ⟨by decide, by decide, Reachable.step _ _ Reachable.init⟩

/-- C7 (amended): status Error implies a recorded error message in
every reachable state, with no restriction on response bodies; status
Monitoring implies a recorded numeric rate sample in every state
reachable by checks whose successful JSON bodies carry a numeric `MYR`
field whenever `rates` is present - without that body restriction the
Monitoring half fails (a present `rates` object lacking `MYR` yields
Monitoring with `rate` undefined). -/
theorem monitor_status_invariant_good_inputs :
    (∀ s, Reachable s → statusOf s = Status.error → s.error.isSome = true) ∧
    (∀ s, ReachableGood s → statusOf s = Status.monitoring → ∃ q, s.rate = JSVal.num q) := by
  constructor
  · intro s h
    induction h with
    | init =>
      intro hst
      simp [statusOf, initialMonitorState] at hst
    | step s i hr ih =>
      rcases i with ⟨thr, sound, perm, r, now, pf⟩
      intro hst
      cases r with
      | networkError m => simp [stepCheck, doCheck]
      | httpError c tx => simp [stepCheck, doCheck]
      | parseError m => simp [stepCheck, doCheck]
      | jsonOk body =>
        rcases body with ⟨rp, myr⟩
        cases rp with
        | false => simp [stepCheck, doCheck]
        | true =>
          cases myr with
          | none => simp [stepCheck, doCheck, statusOf] at hst
          | some q => simp [stepCheck, doCheck, statusOf] at hst
  · intro s h
    induction h with
    | init =>
      intro hst
      simp [statusOf, initialMonitorState] at hst
    | step s i hg hr ih =>
      rcases i with ⟨thr, sound, perm, r, now, pf⟩
      intro hst
      cases r with
      | networkError m => simp [stepCheck, doCheck, statusOf] at hst
      | httpError c tx => simp [stepCheck, doCheck, statusOf] at hst
      | parseError m => simp [stepCheck, doCheck, statusOf] at hst
      | jsonOk body =>
        rcases body with ⟨rp, myr⟩
        cases rp with
        | false => simp [stepCheck, doCheck, statusOf] at hst
        | true =>
          cases myr with
          | none => simp [goodResult] at hg
          | some q => exact ⟨q, by simp [stepCheck, doCheck]⟩

/-- C7 (witness): the Error half applied to the reachable state after
one transport-failed check, and the Monitoring half applied to the
reachable state after one well-formed successful check returning
rate 3.25. -/
theorem monitor_status_invariant_good_inputs_witness :
    (statusOf (stepCheck initialMonitorState failingInput) = Status.error →
      (stepCheck initialMonitorState failingInput).error.isSome = true) ∧
    (statusOf (stepCheck initialMonitorState goodInput) = Status.monitoring →
      ∃ q, (stepCheck initialMonitorState goodInput).rate = JSVal.num q) :=
  ⟨monitor_status_invariant_good_inputs.1 _ (Reachable.step _ failingInput Reachable.init),
   monitor_status_invariant_good_inputs.2 _
     (ReachableGood.step _ goodInput (by decide) ReachableGood.init)⟩

/-- C8 (counterexample): the monitor records a failure only as a
message string - a Network failure and a Parse failure carrying the
same exception text, and likewise an HTTP 500 and a Parse failure
whose text happens to equal the formatted HTTP message, produce
identical monitor states and outputs, so no failure kind is recorded
in the monitor state. -/
theorem failure_kind_not_recorded_cx :
    doCheck initialMonitorState (.finite (Rat.divInt 16 5)) "" .granted
        (.networkError "Failed to fetch") 0 false =
      doCheck initialMonitorState (.finite (Rat.divInt 16 5)) "" .granted
        (.parseError "Failed to fetch") 0 false ∧
    doCheck initialMonitorState (.finite (Rat.divInt 16 5)) "" .granted
        (.httpError 500 "Internal Server Error") 0 false =
      doCheck initialMonitorState (.finite (Rat.divInt 16 5)) "" .granted
        (.parseError "API error: Internal Server Error (500)") 0 false :=
  ⟨by decide, by decide⟩

/-- C8 (amended): every fetch failure is caught, recorded in the
monitor state as a message string (for a non-ok HTTP status the
message contains the status code and reason phrase), yields published
status Error, produces no alert and no playback, and leaves the last
rate untouched; failures never escape the catch block, and the
fixed-rate timer fires independently of outcomes, so the next tick
still occurs - but the state carries no structured failure kind. -/
theorem failure_recorded_as_message :
    (∀ (s : MonitorState) (thr : JSNum) (sound : String) (p : Permission)
        (r : FetchResult) (now : ℕ) (pf : Bool) (m : String),
      failureMessage r = some m →
        (doCheck s thr sound p r now pf).1.error = some m ∧
        statusOf (doCheck s thr sound p r now pf).1 = Status.error ∧
        (doCheck s thr sound p r now pf).2 = noAlert ∧
        (doCheck s thr sound p r now pf).1.rate = s.rate) ∧
    (∀ (code : ℕ) (text : String),
      (Nat.repr code).data <:+: ("API error: " ++ text ++ " (" ++ Nat.repr code ++ ")").data ∧
      text.data <:+: ("API error: " ++ text ++ " (" ++ Nat.repr code ++ ")").data) := by
  constructor
  · intro s thr sound p r now pf m hm
    cases r with
    | networkError m2 =>
      cases hm
      exact ⟨rfl, by simp [doCheck, statusOf], rfl, rfl⟩
    | httpError c tx =>
      cases hm
      exact ⟨rfl, by simp [doCheck, statusOf], rfl, rfl⟩
    | parseError m2 =>
      cases hm
      exact ⟨rfl, by simp [doCheck, statusOf], rfl, rfl⟩
    | jsonOk body =>
      cases hm
  · intro code text
    constructor
    · refine ⟨("API error: " ++ text ++ " (").data, ")".data, ?_⟩
      simp [String.data_append]
    · refine ⟨"API error: ".data, (" (" ++ Nat.repr code ++ ")").data, ?_⟩
      simp [String.data_append]

/-- C8 (witness): an HTTP 500 response recorded from the initial
state. -/
theorem failure_recorded_as_message_witness :
    (doCheck initialMonitorState (.finite (Rat.divInt 16 5)) "" .granted
        (.httpError 500 "Internal Server Error") 0 false).1.error =
      some "API error: Internal Server Error (500)" ∧
    statusOf (doCheck initialMonitorState (.finite (Rat.divInt 16 5)) "" .granted
        (.httpError 500 "Internal Server Error") 0 false).1 = Status.error ∧
    (doCheck initialMonitorState (.finite (Rat.divInt 16 5)) "" .granted
        (.httpError 500 "Internal Server Error") 0 false).2 = noAlert ∧
    (doCheck initialMonitorState (.finite (Rat.divInt 16 5)) "" .granted
        (.httpError 500 "Internal Server Error") 0 false).1.rate =
      initialMonitorState.rate :=
  failure_recorded_as_message.1 initialMonitorState (.finite (Rat.divInt 16 5)) "" .granted
    (.httpError 500 "Internal Server Error") 0 false
    "API error: Internal Server Error (500)" (by decide)

/-- C9: whenever an alert fires with a non-empty sound, playback of
that sound is requested and the notification is marked silent; the
notification and playback requests are identical whether or not
playback fails (a playback failure is only logged); with the empty
sound no playback is requested and the notification is not silent. -/
theorem sound_playback_and_silent_notification :
    (∀ (rate : JSVal) (thr : JSNum) (p : Permission) (sound : String) (pf : Bool),
      sound ≠ "" →
      ∀ nb, (evaluate rate thr p sound pf).notif = some nb →
        (evaluate rate thr p sound pf).played = some sound ∧ nb.silent = true) ∧
    (∀ (rate : JSVal) (thr : JSNum) (p : Permission) (sound : String),
      (evaluate rate thr p sound true).notif = (evaluate rate thr p sound false).notif ∧
      (evaluate rate thr p sound true).played = (evaluate rate thr p sound false).played) ∧
    (∀ (rate : JSVal) (thr : JSNum) (p : Permission) (sound : String),
      sound ≠ "" → (evaluate rate thr p sound true).notif.isSome = true →
        (evaluate rate thr p sound true).logs = ["Error playing audio:"]) ∧
    (∀ (rate : JSVal) (thr : JSNum) (p : Permission) (pf : Bool),
      (evaluate rate thr p "" pf).played = none ∧
      (∀ nb, (evaluate rate thr p "" pf).notif = some nb → nb.silent = false)) := by
  refine ⟨?_, ?_, ?_, ?_⟩
  · intro rate thr p sound pf hs nb hnb
    by_cases hc : jsGT rate thr && (p == Permission.granted)
    · simp only [evaluate, hc, if_pos, if_neg, hs, ne_eq, not_false_eq_true, if_true] at hnb ⊢
      cases hnb
      exact ⟨trivial, rfl⟩
    · simp [evaluate, hc, noAlert] at hnb
  · intro rate thr p sound
    by_cases hc : jsGT rate thr && (p == Permission.granted) <;>
      by_cases hs : sound = "" <;> simp [evaluate, hc, hs, noAlert]
  · intro rate thr p sound hs hnotif
    by_cases hc : jsGT rate thr && (p == Permission.granted)
    · simp [evaluate, hc, hs]
    · simp [evaluate, hc, noAlert] at hnotif
  · intro rate thr p pf
    by_cases hc : jsGT rate thr && (p == Permission.granted)
    · constructor
      · simp [evaluate, hc]
      · intro nb hnb
        simp only [evaluate, hc, if_pos] at hnb
        rw [if_neg (by simp)] at hnb
        cases hnb
        rfl
    · exact ⟨by simp [evaluate, hc, noAlert],
        fun nb hnb => by simp [evaluate, hc, noAlert] at hnb⟩

/-- C9 (witness): the scenario rate 3.25, threshold 3.20, permission
granted and the Chime sound, with failing and succeeding playback. -/
theorem sound_playback_and_silent_notification_witness :
    ((evaluate (.num (Rat.divInt 13 4)) (.finite (Rat.divInt 16 5)) .granted chimeUrl true).played =
        some chimeUrl ∧
      ({ title := alertTitle
         body := alertBody (.num (Rat.divInt 13 4)) (.finite (Rat.divInt 16 5))
         silent := true } : NotificationShown).silent = true) ∧
    (evaluate (.num (Rat.divInt 13 4)) (.finite (Rat.divInt 16 5)) .granted chimeUrl true).logs =
      ["Error playing audio:"] :=
  ⟨sound_playback_and_silent_notification.1 (.num (Rat.divInt 13 4))
      (.finite (Rat.divInt 16 5)) .granted chimeUrl true (by decide) _ (by decide),
    sound_playback_and_silent_notification.2.2.1 (.num (Rat.divInt 13 4))
      (.finite (Rat.divInt 16 5)) .granted chimeUrl (by decide) (by decide)⟩

/-- C10: a successful reconfiguration to a changed threshold, check
interval, or notification sound changes the dependency tuple of the
polling effect, so the effect re-runs: it performs an immediate
`fetchRate()` call and re-arms the `setInterval` timer at the current
interval times 60000 milliseconds - reconfiguration is never deferred
to the next scheduled tick. -/
theorem reconfiguration_triggers_immediate_check :
    (∀ (s : SettingsState) (v : JSNum),
      parseThresholdV s.inputThreshold = VResult.ok v → v ≠ s.threshold →
        effectRefires s (handleSetThreshold s) = true) ∧
    (∀ (s : SettingsState) (n : ℤ),
      parseIntervalV s.inputCheckInterval = VResult.ok n → n ≠ s.checkInterval →
        effectRefires s (handleSetCheckInterval s) = true ∧
        (runPollingEffect (handleSetCheckInterval s)).timerIntervalMs = n * 60 * 1000) ∧
    (∀ (s : SettingsState) (v : String),
      v ≠ s.notificationSound → effectRefires s (handleSoundChange s v) = true) ∧
    (∀ s : SettingsState, (runPollingEffect s).immediateCheck = true) := by
  refine ⟨?_, ?_, ?_, fun s => rfl⟩
  · intro s v hok hv
    simp only [effectRefires, handleSetThreshold, hok, decide_eq_true_eq]
    intro heq
    apply hv
    have h2 := congrArg PollingEffectDeps.threshold heq
    simpa [pollingDeps] using h2.symm
  · intro s n hok hn
    constructor
    · simp only [effectRefires, handleSetCheckInterval, hok, decide_eq_true_eq]
      intro heq
      apply hn
      have h2 := congrArg PollingEffectDeps.checkInterval heq
      simpa [pollingDeps] using h2.symm
    · simp [runPollingEffect, handleSetCheckInterval, hok]
  · intro s v hv
    simp only [effectRefires, handleSoundChange, decide_eq_true_eq]
    intro heq
    apply hv
    have h2 := congrArg PollingEffectDeps.notificationSound heq
    simpa [pollingDeps] using h2.symm

/-- C10 (witness): installing threshold 4 and interval 1 over the
defaults, and selecting the Chime sound. -/
theorem reconfiguration_triggers_immediate_check_witness :
    effectRefires newValueSettings (handleSetThreshold newValueSettings) = true ∧
    (effectRefires newValueSettings (handleSetCheckInterval newValueSettings) = true ∧
      (runPollingEffect (handleSetCheckInterval newValueSettings)).timerIntervalMs = 1 * 60 * 1000) ∧
    effectRefires initialSettings (handleSoundChange initialSettings chimeUrl) = true ∧
    (runPollingEffect initialSettings).immediateCheck = true :=
  ⟨reconfiguration_triggers_immediate_check.1 newValueSettings (.finite 4)
      (by decide) (by decide),
    reconfiguration_triggers_immediate_check.2.1 newValueSettings 1 (by decide) (by decide),
    reconfiguration_triggers_immediate_check.2.2.1 initialSettings chimeUrl (by decide),
    reconfiguration_triggers_immediate_check.2.2.2 initialSettings⟩
